import Mathlib

/-!
# ROSPlan planning system: the mission control loop

A shallow embedding of `rosplan_planning_system/src/PlanningSystem.cpp`.
Strings are lists of characters, publishers are the lists of messages
published so far, and the collaborators that the file only calls (the solver
process, the plan parser, the dispatcher, the parameter server) enter through
a `World` record.
-/

namespace KCL_rosplan

/-! ## `std::string` operations used by the source -/

/-- The value `std::string::npos`: the largest `size_t`, on a 64 bit target. -/
def npos : Nat := 2 ^ 64 - 1

/-- Scan for `std::string::find`: the lowest index at which `pat` starts,
counted from offset `i`, and `npos` when there is none. -/
def findFrom : List Char → List Char → Nat → Nat
  | [], pat, i => if pat.isEmpty then i else npos
  | c :: cs, pat, i => if pat.isPrefixOf (c :: cs) then i else findFrom cs pat (i + 1)

/-- The call `str.find(pat)`. -/
def find (str pat : List Char) : Nat := findFrom str pat 0

/-- The call `str.replace(pos, len, r)`: throws `std::out_of_range` (here `none`)
when `pos > str.size()`, and otherwise replaces the `min len (size - pos)`
characters that start at `pos` by `r`. -/
def replace (str : List Char) (pos len : Nat) (r : List Char) : Option (List Char) :=
  if pos > str.length then none
  else some (str.take pos ++ r ++ str.drop (pos + min len (str.length - pos)))

/-- Lines 279-285 of `runPlanner`: the command string built from the planner
template. The length arguments are `dit+6` and `pit+7` as in the source,
computed in `size_t`. -/
def commandString (planner_command domain_path problem_path data_path : List Char) :
    Option (List Char) :=
  let str := planner_command
  let dit := find str "DOMAIN".toList
  match replace str dit ((dit + 6) % 2 ^ 64) domain_path with
  | none => none
  | some str =>
    let pit := find str "PROBLEM".toList
    match replace str pit ((pit + 7) % 2 ^ 64) problem_path with
    | none => none
    | some str => some (str ++ " > ".toList ++ data_path ++ "plan.pddl".toList)


/-- The loop at lines 295-299: read the artifact line by line until the end of
the file or until a line holds the marker `; Time`. -/
def solvedScan : List (List Char) → Bool
  | [] => false
  | line :: rest => if find line "; Time".toList ≠ npos then true else solvedScan rest

/-- The C function `isspace` in the default locale. -/
def isspace (c : Char) : Bool :=
  c = ' ' || c = '\t' || c = '\n' || c = '\x0b' || c = '\x0c' || c = '\r'

/-- The digit run read by `atoi`, most significant digit first. -/
def atoiDigits : List Char → Nat → Nat
  | [], acc => acc
  | c :: cs, acc => if c.isDigit then atoiDigits cs (acc * 10 + (c.toNat - 48)) else acc

/-- The C function `atoi`: optional white space, an optional sign, then digits.
A value outside `int` is undefined behaviour in C and is left unbounded here. -/
def atoi (s : List Char) : Int :=
  match s.dropWhile isspace with
  | '-' :: cs => - (atoiDigits cs 0 : Int)
  | '+' :: cs => (atoiDigits cs 0 : Int)
  | cs => (atoiDigits cs 0 : Int)

/-! ## Data model -/

/-- The enumeration behind `system_status`. -/
inductive SystemStatus
  | READY
  | PLANNING
  | DISPATCHING
  | PAUSED
  deriving DecidableEq, Repr

/-- Modelled from the spec: the message type `rosplan_dispatch_msgs::ActionDispatch`,
declared outside this file; an action record with its id and name. -/
structure ActionDispatch where
  action_id : Nat
  name : List Char
  deriving DecidableEq, Repr

/-- The `function` field of `rosplan_knowledge_msgs::Filter`. -/
inductive FilterFunction
  | CLEAR
  | ADD
  | REMOVE
  deriving DecidableEq, Repr

/-- The message `rosplan_knowledge_msgs::Filter`; knowledge items are kept as
their identifiers. -/
structure Filter where
  function : FilterFunction
  knowledge_items : List (List Char)
  deriving DecidableEq, Repr

/-- The fields of the plan parser object that this file reads and writes. -/
structure PlanParser where
  action_list : List ActionDispatch
  knowledge_filter : List (List Char)
  deriving DecidableEq, Repr

/-- The fields of the plan dispatcher object that this file reads and writes. -/
structure PlanDispatcher where
  dispatch_paused : Bool
  plan_cancelled : Bool
  replan_requested : Bool
  current_action : Nat
  deriving DecidableEq, Repr

/-- The planning system object. The three publishers hold the messages
published so far, oldest first; `files` holds the files written under the data
directory; `commands_run`, `problem_requests`, `parser_calls` and
`dispatch_calls` record the calls made to the external collaborators. The
member `plan_parser` of the source is the field `planParser`. -/
structure PlanningSystem where
  system_status : SystemStatus
  planParser : PlanParser
  plan_dispatcher : PlanDispatcher
  domain_path : List Char
  problem_path : List Char
  data_path : List Char
  planner_command : List Char
  planning_attempts : Nat
  plan_list : List (List ActionDispatch)
  state_publisher : List (List Char)
  plan_publisher : List (List ActionDispatch)
  filter_publisher : List Filter
  files : List (List Char × List (List Char))
  commands_run : List (List Char)
  problem_requests : List (List Char)
  parser_calls : List (List Char × Nat)
  dispatch_calls : List (List ActionDispatch)
  deriving DecidableEq, Repr

/-- How a call ends when it does not return: a `std::out_of_range` thrown by
`std::string::replace`, or a loop that was still running when the fuel ran out. -/
inductive Fault
  | out_of_range
  | out_of_fuel
  deriving DecidableEq, Repr

/-- What reaches the node while `dispatchPlan` is running. -/
inductive Event
  | command (msg : List Char)
  | notification
  deriving DecidableEq, Repr

/-- The collaborators of the planning system, none of which is defined in this
file. Calls made during a planning attempt are indexed by `planning_attempts`.
* `param`: the parameter server read by `nh.param`;
* `parser_reset`, `dispatcher_reset`: the two `reset()` methods;
* `solver`: the lines that the command leaves in `plan.pddl`;
* `preparePlan`: the parser run on the artifact and the current action id;
* `dispatchEvents`, `dispatchResult`: what arrives while `dispatchPlan` runs,
  and the value it returns. -/
structure World where
  param : List Char → Option (List Char)
  parser_reset : PlanParser → PlanParser
  dispatcher_reset : PlanDispatcher → PlanDispatcher
  solver : Nat → List Char → List (List Char)
  preparePlan : List (List Char) → Nat → PlanParser → PlanParser
  dispatchEvents : Nat → List Event
  dispatchResult : Nat → Bool

/-! ## File system -/

/-- Open a file for writing and fill it with `content`. -/
def writeFile (path : List Char) (content : List (List Char))
    (files : List (List Char × List (List Char))) : List (List Char × List (List Char)) :=
  (path, content) :: files.filter (fun f => f.1 ≠ path)

/-- Open a file for reading; an absent file has nothing to read. -/
def readFile (path : List Char) (files : List (List Char × List (List Char))) :
    List (List Char) :=
  match files.find? (fun f => f.1 = path) with
  | some f => f.2
  | none => []

/-! ## Knowledge -/

/-- The method `notificationCallBack`, lines 74-78. -/
def notificationCallBack (s : PlanningSystem) : PlanningSystem :=
  { s with plan_dispatcher := { s.plan_dispatcher with replan_requested := true } }

/-- The method `publishFilter`, lines 83-95. -/
def publishFilter (s : PlanningSystem) : PlanningSystem :=
  -- clear the old filter
  let filterMessage : Filter := { function := FilterFunction.CLEAR, knowledge_items := [] }
  let s := { s with filter_publisher := s.filter_publisher ++ [filterMessage] }
  -- push the new filter
  let filterMessage : Filter :=
    { filterMessage with
      function := FilterFunction.ADD, knowledge_items := s.planParser.knowledge_filter }
  { s with filter_publisher := s.filter_publisher ++ [filterMessage] }

/-! ## Plan and process -/

/-- The method `runPlanner`, lines 269-324. -/
def runPlanner (w : World) (s : PlanningSystem) : Except Fault (Bool × PlanningSystem) :=
  -- save previous plan
  let s := { s with planning_attempts := s.planning_attempts + 1 }
  let s :=
    if s.planParser.action_list.length > 0 then
      { s with plan_list := s.plan_list ++ [s.planParser.action_list] }
    else s
  -- run the planner
  match commandString s.planner_command s.domain_path s.problem_path s.data_path with
  | none => Except.error Fault.out_of_range
  | some cmd =>
    let artifact := s.data_path ++ "plan.pddl".toList
    let s :=
      { s with
        commands_run := s.commands_run ++ [cmd],
        files := writeFile artifact (w.solver s.planning_attempts cmd) s.files }
    -- check the planner solved the problem
    if ! solvedScan (readFile artifact s.files) then Except.ok (false, s)
    else
      -- save file
      let dest := s.data_path ++ "plan_".toList ++ (toString s.planning_attempts).toList
      let s := { s with files := writeFile dest (readFile artifact s.files) s.files }
      -- convert plan into message list for dispatch
      let s :=
        { s with
          planParser :=
            w.preparePlan (readFile artifact s.files) s.plan_dispatcher.current_action
              s.planParser,
          parser_calls := s.parser_calls ++ [(s.data_path, s.plan_dispatcher.current_action)] }
      -- publish the filter to the knowledge base
      Except.ok (true, publishFilter s)

/-! ## Planning system loop -/

/-- Lines 196-199 of `runPlanningServer`: the arguments are stored in the
members before the status is looked at. -/
def setContext (domainPath problemPath dataPath plannerCommand : List Char)
    (s : PlanningSystem) : PlanningSystem :=
  { s with
    data_path := dataPath, domain_path := domainPath,
    problem_path := problemPath, planner_command := plannerCommand }

/-- Lines 206-221 of `runPlanningServer`: enter PLANNING, publish it, reset the
parser and the dispatcher. -/
def startMission (w : World) (s : PlanningSystem) : PlanningSystem :=
  let s :=
    { s with
      system_status := SystemStatus.PLANNING,
      state_publisher := s.state_publisher ++ ["Planning".toList] }
  { s with
    planParser := w.parser_reset s.planParser,
    plan_dispatcher := w.dispatcher_reset s.plan_dispatcher }

/-- The loop condition at line 222. -/
def loopCondition (planSucceeded : Bool) (s : PlanningSystem) : Bool :=
  ! planSucceeded && ! s.plan_dispatcher.plan_cancelled

/-- Lines 224-226: the head of an iteration. -/
def loopTop (s : PlanningSystem) : PlanningSystem :=
  { s with
    state_publisher := s.state_publisher ++ ["Planning".toList],
    system_status := SystemStatus.PLANNING }

/-- Lines 229-250 up to the call of `dispatchPlan`: request the problem, run the
planner (the value it returns is not used), publish the plan, enter
DISPATCHING and hand the action list to the dispatcher. -/
def loopPlan (w : World) (s : PlanningSystem) : Except Fault PlanningSystem :=
  -- generate PDDL problem
  let s := { s with problem_requests := s.problem_requests ++ [s.problem_path] }
  -- run planner; generate a plan
  match runPlanner w s with
  | Except.error e => Except.error e
  | Except.ok (_, s) =>
    -- publish plan
    let s := { s with plan_publisher := s.plan_publisher ++ [s.planParser.action_list] }
    -- dispatch plan
    let s :=
      { s with
        system_status := SystemStatus.DISPATCHING,
        state_publisher := s.state_publisher ++ ["Dispatching".toList] }
    Except.ok { s with dispatch_calls := s.dispatch_calls ++ [s.planParser.action_list] }

/-- Lines 252-256: leave the loop, return to READY and publish it. -/
def finishMission (s : PlanningSystem) : PlanningSystem :=
  { s with
    system_status := SystemStatus.READY,
    state_publisher := s.state_publisher ++ ["Ready".toList] }

/-- The method `runPlanningServer`, lines 194-259, over a given retry loop. -/
def runPlanningServerWith (loop : PlanningSystem → Except Fault (Bool × PlanningSystem))
    (w : World) (domainPath problemPath dataPath plannerCommand : List Char)
    (s : PlanningSystem) : Except Fault (Bool × PlanningSystem) :=
  let s := setContext domainPath problemPath dataPath plannerCommand s
  if s.system_status ≠ SystemStatus.READY then Except.ok (false, s)
  else
    match loop (startMission w s) with
    | Except.error e => Except.error e
    | Except.ok (planSucceeded, s) => Except.ok (planSucceeded, finishMission s)

/-- The method `runPlanningServerDefault`, lines 158-170, over a given retry loop. -/
def runPlanningServerDefaultWith (loop : PlanningSystem → Except Fault (Bool × PlanningSystem))
    (w : World) (s : PlanningSystem) : Except Fault (Bool × PlanningSystem) :=
  -- setup environment
  let s := { s with domain_path := (w.param "/domain_path".toList).getD "common/domain.pddl".toList }
  let s := { s with data_path := (w.param "data_path".toList).getD "common/".toList }
  let s := { s with problem_path := (w.param "problem_path".toList).getD "common/problem.pddl".toList }
  let s :=
    { s with
      planner_command :=
        (w.param "planner_command".toList).getD
          "timeout 10 common/bin/popf -n DOMAIN PROBLEM".toList }
  -- call planning server
  runPlanningServerWith loop w s.domain_path s.problem_path s.data_path s.planner_command s

/-! ## Planning system commands -/

/-- Modelled from the spec: the dispatcher method `setCurrentAction`, defined
outside this file; it stores the action id that the next dispatch starts from. -/
def setCurrentAction (aid : Nat) (d : PlanDispatcher) : PlanDispatcher :=
  { d with current_action := aid }

/-- The method `commandCallback`, lines 101-151; `start` is the call of
`runPlanningServerDefault` at line 113. -/
def commandCallbackWith (start : PlanningSystem → Except Fault (Bool × PlanningSystem))
    (msg : List Char) (s : PlanningSystem) : Except Fault PlanningSystem :=
  if msg.take 4 = "plan".toList then
    -- get free action ID
    let s :=
      if msg.length > 4 then
        let aid := (atoi (msg.drop 5) % 2 ^ 64).toNat
        { s with plan_dispatcher := setCurrentAction aid s.plan_dispatcher }
      else s
    -- start planning and executing
    if s.system_status = SystemStatus.READY then
      match start s with
      | Except.error e => Except.error e
      | Except.ok (_, s) => Except.ok s
    else Except.ok s
  else if msg = "pause".toList then
    if s.system_status = SystemStatus.DISPATCHING && ! s.plan_dispatcher.dispatch_paused then
      Except.ok
        { s with
          plan_dispatcher := { s.plan_dispatcher with dispatch_paused := true },
          system_status := SystemStatus.PAUSED,
          state_publisher := s.state_publisher ++ ["Paused".toList] }
    else if s.system_status = SystemStatus.PAUSED then
      Except.ok
        { s with
          plan_dispatcher := { s.plan_dispatcher with dispatch_paused := false },
          system_status := SystemStatus.DISPATCHING,
          state_publisher := s.state_publisher ++ ["Dispatching".toList] }
    else Except.ok s
  else if msg = "cancel".toList then
    let s :=
      match s.system_status with
      | SystemStatus.PLANNING | SystemStatus.DISPATCHING | SystemStatus.PAUSED =>
        { s with plan_dispatcher := { s.plan_dispatcher with plan_cancelled := true } }
      | SystemStatus.READY => s
    if s.system_status = SystemStatus.PAUSED then
      Except.ok
        { s with
          plan_dispatcher := { s.plan_dispatcher with dispatch_paused := false },
          system_status := SystemStatus.DISPATCHING,
          state_publisher := s.state_publisher ++ ["Dispatching".toList] }
    else Except.ok s
  else Except.ok s

/-- One event delivered while `dispatchPlan` runs. -/
def handleEvent (start : PlanningSystem → Except Fault (Bool × PlanningSystem)) :
    Event → PlanningSystem → Except Fault PlanningSystem
  | Event.command msg, s => commandCallbackWith start msg s
  | Event.notification, s => Except.ok (notificationCallBack s)

/-- The events delivered while `dispatchPlan` runs, in their order of arrival. -/
def handleEvents (start : PlanningSystem → Except Fault (Bool × PlanningSystem)) :
    List Event → PlanningSystem → Except Fault PlanningSystem
  | [], s => Except.ok s
  | e :: es, s =>
    match handleEvent start e s with
    | Except.error f => Except.error f
    | Except.ok s => handleEvents start es s

/-- The call `plan_dispatcher->dispatchPlan(...)` at line 250: the dispatcher is
not part of this file; the callbacks of this file run on what arrives in the
meantime, and the world gives the value returned. -/
def dispatchPlan (start : PlanningSystem → Except Fault (Bool × PlanningSystem))
    (w : World) (s : PlanningSystem) : Except Fault (Bool × PlanningSystem) :=
  match handleEvents start (w.dispatchEvents s.planning_attempts) s with
  | Except.error f => Except.error f
  | Except.ok s' => Except.ok (w.dispatchResult s.planning_attempts, s')

/-- The retry loop of `runPlanningServer`, lines 222-251, entered with the value
of `planSucceeded`. The fuel bounds the number of iterations still allowed,
nested missions included. -/
def missionLoop (w : World) : Nat → Bool → PlanningSystem → Except Fault (Bool × PlanningSystem)
  | 0, planSucceeded, s =>
    if loopCondition planSucceeded s then Except.error Fault.out_of_fuel
    else Except.ok (planSucceeded, s)
  | fuel + 1, planSucceeded, s =>
    if loopCondition planSucceeded s then
      match loopPlan w (loopTop s) with
      | Except.error f => Except.error f
      | Except.ok s =>
        match dispatchPlan
            (fun t => runPlanningServerDefaultWith (fun u => missionLoop w fuel false u) w t)
            w s with
        | Except.error f => Except.error f
        | Except.ok (b, s) => missionLoop w fuel b s
    else Except.ok (planSucceeded, s)

/-- The method `runPlanningServer`, lines 194-259. -/
def runPlanningServer (fuel : Nat) (w : World)
    (domainPath problemPath dataPath plannerCommand : List Char) (s : PlanningSystem) :
    Except Fault (Bool × PlanningSystem) :=
  runPlanningServerWith (fun t => missionLoop w fuel false t) w
    domainPath problemPath dataPath plannerCommand s

/-- The method `runPlanningServerDefault`, lines 158-170. -/
def runPlanningServerDefault (fuel : Nat) (w : World) (s : PlanningSystem) :
    Except Fault (Bool × PlanningSystem) :=
  runPlanningServerDefaultWith (fun t => missionLoop w fuel false t) w s

/-- The method `runPlanningServerParams`, lines 173-176; `req` holds the fields
`domain_path`, `problem_path`, `data_path` and `planner_command` of the request. -/
def runPlanningServerParams (fuel : Nat) (w : World)
    (req : List Char × List Char × List Char × List Char) (s : PlanningSystem) :
    Except Fault (Bool × PlanningSystem) :=
  runPlanningServer fuel w req.1 req.2.1 req.2.2.1 req.2.2.2 s

/-- The method `commandCallback`, lines 101-151. -/
def commandCallback (fuel : Nat) (w : World) (msg : List Char) (s : PlanningSystem) :
    Except Fault PlanningSystem :=
  commandCallbackWith (runPlanningServerDefault fuel w) msg s

/-! ## Sequences of planning attempts -/

/-- The calls of `runPlanner` made by `n` successive iterations of the retry
loop; the loop does not look at the value returned. -/
def runPlannerTimes (w : World) : Nat → PlanningSystem → Except Fault PlanningSystem
  | 0, s => Except.ok s
  | n + 1, s =>
    match runPlanner w s with
    | Except.error f => Except.error f
    | Except.ok (_, s) => runPlannerTimes w n s

/-! ## The knowledge base as an observer of the filter topic -/

/-- Modelled from the spec: the knowledge base, which is not part of this file,
accepts the filter updates `clear` and `add(items)`; this is the filter it holds
after one more message. -/
def applyFilter (held : List (List Char)) (m : Filter) : List (List Char) :=
  match m.function with
  | FilterFunction.CLEAR => []
  | FilterFunction.ADD => held ++ m.knowledge_items
  | FilterFunction.REMOVE => held.filter (fun k => ! m.knowledge_items.contains k)

/-- Modelled from the spec: the filter that the knowledge base holds after the
messages published so far. -/
def observedFilter (msgs : List Filter) : List (List Char) :=
  msgs.foldl applyFilter []

/-! ## The mission loop and the callbacks as a transition system -/

/-- Where the thread that runs `runPlanningServer` stands. -/
inductive LoopPoint
  | idle
  | head (planSucceeded : Bool)
  | planning
  | dispatching
  deriving DecidableEq, Repr

/-- The planning system together with the point its mission loop stands at. -/
structure Config where
  sys : PlanningSystem
  point : LoopPoint
  deriving DecidableEq, Repr

/-- One step of the system: a callback runs, or the mission loop moves to its
next point.
* `command`, `notification`: the two subscriber callbacks;
* `start`, `busy`: a call of `runPlanningServer`, accepted or rejected;
* `iterate`: the condition at line 222 holds and lines 224-226 run;
* `plan`: lines 229-249 run and `dispatchPlan` is entered;
* `dispatched`: `dispatchPlan` returns some value;
* `finish`: the condition at line 222 fails and lines 252-256 run. -/
inductive Step (w : World) : Config → Config → Prop
  | command (fuel : Nat) (msg : List Char) (s s' : PlanningSystem) (pt : LoopPoint) :
      commandCallback fuel w msg s = Except.ok s' → Step w ⟨s, pt⟩ ⟨s', pt⟩
  | notification (s : PlanningSystem) (pt : LoopPoint) :
      Step w ⟨s, pt⟩ ⟨notificationCallBack s, pt⟩
  | start (d p dd t : List Char) (s : PlanningSystem) :
      s.system_status = SystemStatus.READY →
      Step w ⟨s, LoopPoint.idle⟩ ⟨startMission w (setContext d p dd t s), LoopPoint.head false⟩
  | busy (d p dd t : List Char) (s : PlanningSystem) (pt : LoopPoint) :
      s.system_status ≠ SystemStatus.READY →
      Step w ⟨s, pt⟩ ⟨setContext d p dd t s, pt⟩
  | iterate (b : Bool) (s : PlanningSystem) :
      loopCondition b s = true →
      Step w ⟨s, LoopPoint.head b⟩ ⟨loopTop s, LoopPoint.planning⟩
  | plan (s s' : PlanningSystem) :
      loopPlan w s = Except.ok s' →
      Step w ⟨s, LoopPoint.planning⟩ ⟨s', LoopPoint.dispatching⟩
  | dispatched (b : Bool) (s : PlanningSystem) :
      Step w ⟨s, LoopPoint.dispatching⟩ ⟨s, LoopPoint.head b⟩
  | finish (b : Bool) (s : PlanningSystem) :
      loopCondition b s = false →
      Step w ⟨s, LoopPoint.head b⟩ ⟨finishMission s, LoopPoint.idle⟩

/-! ## Scenarios -/

/-- The object built by the constructor, lines 14-33, after `main` has
published the first state message (lines 357-359). -/
def initial : PlanningSystem :=
  { system_status := SystemStatus.READY,
    planParser := { action_list := [], knowledge_filter := [] },
    plan_dispatcher :=
      { dispatch_paused := false, plan_cancelled := false,
        replan_requested := false, current_action := 0 },
    domain_path := [], problem_path := [], data_path := [], planner_command := [],
    planning_attempts := 0, plan_list := [],
    state_publisher := ["Ready".toList], plan_publisher := [], filter_publisher := [],
    files := [], commands_run := [], problem_requests := [],
    parser_calls := [], dispatch_calls := [] }

/-- Modelled from the spec: the parser method `reset`, defined outside this
file; it forgets the plan and the filter of the previous mission. -/
def parserReset (_ : PlanParser) : PlanParser :=
  { action_list := [], knowledge_filter := [] }

/-- Modelled from the spec: the dispatcher method `reset`, defined outside this
file; the control signals are reset to false at the start of every mission. -/
def dispatcherReset (d : PlanDispatcher) : PlanDispatcher :=
  { d with dispatch_paused := false, plan_cancelled := false, replan_requested := false }

/-- The three actions that the sample plan is parsed into. -/
def sampleActions : List ActionDispatch :=
  [{ action_id := 0, name := "a".toList }, { action_id := 1, name := "b".toList },
   { action_id := 2, name := "c".toList }]

/-- The sample scenario of the spec: the first run of the solver leaves an
artifact without the marker, the second one an artifact with it, which is
parsed into three actions; the dispatcher fails on the first plan it is
handed and succeeds on the second. -/
def sampleWorld : World :=
  { param := fun _ => none,
    parser_reset := parserReset,
    dispatcher_reset := dispatcherReset,
    solver := fun n _ =>
      if n = 1 then ["; no plan".toList] else ["; Time 0.01".toList, "0.000: (a) [1.000]".toList],
    preparePlan := fun _ _ _ =>
      { action_list := sampleActions, knowledge_filter := ["k".toList] },
    dispatchEvents := fun _ => [],
    dispatchResult := fun n => decide (n = 2) }

/-- A mission in flight: the sample mission while its plan is being dispatched. -/
def dispatchingState : PlanningSystem :=
  { setContext "D".toList "P".toList "dd/".toList "DOMAIN PROBLEM".toList initial with
    system_status := SystemStatus.DISPATCHING,
    planParser := { action_list := sampleActions, knowledge_filter := ["k".toList] },
    planning_attempts := 1,
    state_publisher := ["Ready".toList, "Planning".toList, "Planning".toList, "Dispatching".toList] }

/-- The sample mission after a pause command has arrived during dispatch. -/
def pausedState : PlanningSystem :=
  { dispatchingState with
    plan_dispatcher := { dispatchingState.plan_dispatcher with dispatch_paused := true },
    system_status := SystemStatus.PAUSED,
    state_publisher := dispatchingState.state_publisher ++ ["Paused".toList] }

/-- The configurations that the node can be in. -/
inductive Reachable (w : World) : Config → Prop
  | init : Reachable w ⟨initial, LoopPoint.idle⟩
  | step (c c' : Config) : Reachable w c → Step w c c' → Reachable w c'

/-! ## Lemmas on the string and file operations -/

theorem findFrom_le (str pat : List Char) (i : Nat) (h : pat <:+: str) :
    findFrom str pat i ≤ i + str.length := by
  induction str generalizing i with
  | nil =>
    have hp : pat = [] := by simpa using h
    simp [findFrom, hp]
  | cons c cs ih =>
    unfold findFrom
    by_cases hpre : pat.isPrefixOf (c :: cs) = true
    · rw [if_pos hpre]
      omega
    · rw [if_neg hpre]
      rcases List.infix_cons_iff.mp h with h1 | h2
      · exact absurd (List.isPrefixOf_iff_prefix.mpr h1) hpre
      · have := ih (i + 1) h2
        simp only [List.length_cons]
        omega

theorem findFrom_npos (str pat : List Char) (i : Nat) (h : ¬ pat <:+: str) :
    findFrom str pat i = npos := by
  induction str generalizing i with
  | nil =>
    have hp : pat ≠ [] := by
      intro hp
      exact h (by simp [hp])
    cases pat with
    | nil => exact absurd rfl hp
    | cons a as => simp [findFrom]
  | cons c cs ih =>
    unfold findFrom
    by_cases hpre : pat.isPrefixOf (c :: cs) = true
    · exact absurd (List.isPrefixOf_iff_prefix.mp hpre).isInfix h
    · rw [if_neg hpre]
      exact ih (i + 1) (fun h2 => h (List.infix_cons_iff.mpr (Or.inr h2)))

/-- On a string shorter than `npos`, `find` misses exactly the patterns that do
not occur in it. -/
theorem find_ne_npos_iff (str pat : List Char) (hlen : str.length < npos) :
    find str pat ≠ npos ↔ pat <:+: str := by
  constructor
  · intro h
    by_contra hn
    exact h (findFrom_npos str pat 0 hn)
  · intro h
    have := findFrom_le str pat 0 h
    unfold find
    omega

theorem solvedScan_iff (lines : List (List Char)) (hlen : ∀ l ∈ lines, l.length < npos) :
    solvedScan lines = true ↔ ∃ l ∈ lines, "; Time".toList <:+: l := by
  induction lines with
  | nil => simp [solvedScan]
  | cons l ls ih =>
    have hl : l.length < npos := hlen l (by simp)
    have ih' := ih (fun x hx => hlen x (by simp [hx]))
    unfold solvedScan
    by_cases hf : find l "; Time".toList ≠ npos
    · rw [if_pos hf]
      exact ⟨fun _ => ⟨l, by simp, (find_ne_npos_iff l _ hl).mp hf⟩, fun _ => rfl⟩
    · rw [if_neg hf, ih']
      constructor
      · rintro ⟨x, hx, hi⟩
        exact ⟨x, by simp [hx], hi⟩
      · rintro ⟨x, hx, hi⟩
        rcases List.mem_cons.mp hx with rfl | hx'
        · exact absurd ((find_ne_npos_iff _ _ hl).mpr hi) hf
        · exact ⟨x, hx', hi⟩

theorem readFile_writeFile (path : List Char) (content : List (List Char))
    (files : List (List Char × List (List Char))) :
    readFile path (writeFile path content files) = content := by
  simp [readFile, writeFile]

theorem readFile_writeFile_ne (path other : List Char) (content : List (List Char))
    (files : List (List Char × List (List Char))) (h : other ≠ path) :
    readFile path (writeFile other content files) = readFile path files := by
  have hfind : ∀ fs : List (List Char × List (List Char)),
      (fs.filter (fun f => f.1 ≠ other)).find? (fun f => f.1 = path)
        = fs.find? (fun f => f.1 = path) := by
    intro fs
    induction fs with
    | nil => rfl
    | cons f fs ih =>
      by_cases h1 : f.1 = other
      · have h2 : ¬ f.1 = path := fun h2 => h (h1.symm.trans h2)
        have hk : (decide (f.1 ≠ other)) = false := by simp [h1]
        rw [List.filter_cons_of_neg (by simp [h1]), List.find?_cons_of_neg _ (by simp [h2])]
        exact ih
      · rw [List.filter_cons_of_pos (by simp [h1])]
        by_cases h2 : f.1 = path
        · rw [List.find?_cons_of_pos _ (by simp [h2]), List.find?_cons_of_pos _ (by simp [h2])]
        · rw [List.find?_cons_of_neg _ (by simp [h2]), List.find?_cons_of_neg _ (by simp [h2])]
          exact ih
  unfold readFile writeFile
  rw [List.find?_cons_of_neg _ (by simpa using h), hfind]

/-- The archived copy never has the name of the artifact itself. -/
theorem archive_ne_artifact (dataPath suffix : List Char) :
    dataPath ++ "plan_".toList ++ suffix ≠ dataPath ++ "plan.pddl".toList := by
  intro h
  rw [List.append_assoc] at h
  have h2 := List.append_cancel_left h
  simp at h2

/-- The bookkeeping at lines 272-276 does not touch the fields that the command
string is built from. -/
theorem runPlanner_ok (w : World) (s : PlanningSystem) (cmd : List Char)
    (hcmd : commandString s.planner_command s.domain_path s.problem_path s.data_path = some cmd) :
    ∃ b s', runPlanner w s = Except.ok (b, s')
      ∧ b = solvedScan (w.solver (s.planning_attempts + 1) cmd)
      ∧ s'.planning_attempts = s.planning_attempts + 1
      ∧ s'.plan_list =
          (if s.planParser.action_list.length > 0 then s.plan_list ++ [s.planParser.action_list]
           else s.plan_list)
      ∧ s'.planner_command = s.planner_command ∧ s'.domain_path = s.domain_path
      ∧ s'.problem_path = s.problem_path ∧ s'.data_path = s.data_path
      ∧ s'.system_status = s.system_status ∧ s'.plan_dispatcher = s.plan_dispatcher
      ∧ s'.state_publisher = s.state_publisher := by
  unfold runPlanner
  by_cases hlen : s.planParser.action_list.length > 0
  · simp only [hlen, if_true, hcmd, readFile_writeFile]
    by_cases hs : solvedScan (w.solver (s.planning_attempts + 1) cmd) = true
    · simp [hs, publishFilter]
    · simp [hs]
  · simp only [hlen, if_false, hcmd, readFile_writeFile]
    by_cases hs : solvedScan (w.solver (s.planning_attempts + 1) cmd) = true
    · simp [hs, publishFilter]
    · simp [hs]

/-! ## Planner invocation -/

/-- C6. Validation of the solver artifact. Whenever the command string can be
built, so that the solver is run and leaves its artifact (a finite list of
lines, each a `std::string`), `runPlanner` returns true exactly when some line
of the artifact contains the marker `; Time`: it then archives the artifact as
`plan_<planning_attempts>`, runs the parser on it and publishes the filter.
When no line contains the marker it returns false, and writes no archive, does
not call the parser and publishes no filter. -/
theorem runPlanner_validates_artifact (w : World) (s : PlanningSystem) (cmd : List Char)
    (hcmd : commandString s.planner_command s.domain_path s.problem_path s.data_path = some cmd)
    (hsize : ∀ l ∈ w.solver (s.planning_attempts + 1) cmd, l.length < npos) :
    ((∃ l ∈ w.solver (s.planning_attempts + 1) cmd, "; Time".toList <:+: l) →
      ∃ s', runPlanner w s = Except.ok (true, s')
        ∧ readFile (s.data_path ++ "plan_".toList ++ (toString (s.planning_attempts + 1)).toList)
            s'.files = w.solver (s.planning_attempts + 1) cmd
        ∧ s'.planParser =
            w.preparePlan (w.solver (s.planning_attempts + 1) cmd)
              s.plan_dispatcher.current_action s.planParser
        ∧ s'.parser_calls = s.parser_calls ++ [(s.data_path, s.plan_dispatcher.current_action)]
        ∧ s'.filter_publisher = s.filter_publisher ++
            [{ function := FilterFunction.CLEAR, knowledge_items := [] },
             { function := FilterFunction.ADD, knowledge_items := s'.planParser.knowledge_filter }])
    ∧ ((¬ ∃ l ∈ w.solver (s.planning_attempts + 1) cmd, "; Time".toList <:+: l) →
      ∃ s', runPlanner w s = Except.ok (false, s')
        ∧ s'.files =
            writeFile (s.data_path ++ "plan.pddl".toList) (w.solver (s.planning_attempts + 1) cmd)
              s.files
        ∧ s'.planParser = s.planParser
        ∧ s'.parser_calls = s.parser_calls
        ∧ s'.filter_publisher = s.filter_publisher) := by
  have hscan := solvedScan_iff (w.solver (s.planning_attempts + 1) cmd) hsize
  constructor
  · intro hm
    have hs : solvedScan (w.solver (s.planning_attempts + 1) cmd) = true := hscan.mpr hm
    unfold runPlanner
    by_cases hlen : s.planParser.action_list.length > 0
    · simp [hlen, hcmd, readFile_writeFile, readFile_writeFile_ne, archive_ne_artifact, hs,
        publishFilter]
    · simp [hlen, hcmd, readFile_writeFile, readFile_writeFile_ne, archive_ne_artifact, hs,
        publishFilter]
  · intro hm
    have hs : solvedScan (w.solver (s.planning_attempts + 1) cmd) = false := by
      cases h : solvedScan (w.solver (s.planning_attempts + 1) cmd) with
      | false => rfl
      | true => exact absurd (hscan.mp h) hm
    unfold runPlanner
    by_cases hlen : s.planParser.action_list.length > 0
    · simp [hlen, hcmd, readFile_writeFile, hs]
    · simp [hlen, hcmd, readFile_writeFile, hs]

/-- The command string of the sample mission whose template starts with its
first placeholder. -/
theorem sample_commandString :
    commandString "DOMAIN PROBLEM".toList "D".toList "P".toList "dd/".toList
      = some "D P > dd/plan.pddl".toList := by
  decide

/-- C6, at the second attempt of the sample mission: the artifact holds the
marker, and the attempt is archived as `plan_2`, parsed and its filter published. -/
theorem runPlanner_validates_artifact_witness :
    (∃ l ∈ sampleWorld.solver 2 "D P > dd/plan.pddl".toList, "; Time".toList <:+: l)
    ∧ ∃ s', runPlanner sampleWorld
          { setContext "D".toList "P".toList "dd/".toList "DOMAIN PROBLEM".toList initial with
            planning_attempts := 1 } = Except.ok (true, s')
        ∧ readFile "dd/plan_2".toList s'.files = sampleWorld.solver 2 "D P > dd/plan.pddl".toList
        ∧ s'.planParser = { action_list := sampleActions, knowledge_filter := ["k".toList] }
        ∧ s'.parser_calls = [("dd/".toList, 0)]
        ∧ s'.filter_publisher =
            [{ function := FilterFunction.CLEAR, knowledge_items := [] },
             { function := FilterFunction.ADD, knowledge_items := s'.planParser.knowledge_filter }] :=
  ⟨by decide,
   (runPlanner_validates_artifact sampleWorld
      { setContext "D".toList "P".toList "dd/".toList "DOMAIN PROBLEM".toList initial with
        planning_attempts := 1 }
      "D P > dd/plan.pddl".toList sample_commandString (by decide)).1 (by decide)⟩

/-! ## Plan history -/

/-- C5, as stated, fails on the sample mission: after its two planning attempts,
one unsolvable and one solved, `planning_attempts` is 2 and the plan history is
empty, both for the two calls of `runPlanner` alone and for the whole mission. -/
theorem plan_history_not_one_entry_per_attempt :
    (∃ s', runPlannerTimes sampleWorld 2
        (startMission sampleWorld
          (setContext "D".toList "P".toList "dd/".toList "DOMAIN PROBLEM".toList initial))
          = Except.ok s'
      ∧ s'.planning_attempts = 2 ∧ s'.plan_list = [] ∧ s'.plan_list.length ≠ 0 + 2)
    ∧ ∃ s', runPlanningServer 5 sampleWorld "D".toList "P".toList "dd/".toList
          "DOMAIN PROBLEM".toList initial = Except.ok (true, s')
      ∧ s'.planning_attempts = 2 ∧ s'.plan_list = [] ∧ s'.plan_list.length ≠ 0 + 2 :=
  ⟨⟨_, rfl, by decide, by decide, by decide⟩, ⟨_, rfl, by decide, by decide, by decide⟩⟩

/-- C5, amended. Whenever the command string can be built, `n` successive calls
of `runPlanner` all return; they raise `planning_attempts` by exactly `n`, leave
every entry that the plan history had in place (the old history is a prefix of
the new one) and add at most `n` entries. A single call appends exactly the
action list that the parser held before the call, the previous plan, and only
when that list is not empty. -/
theorem plan_history_append_only (w : World) (n : Nat) (s : PlanningSystem) (cmd : List Char)
    (hcmd : commandString s.planner_command s.domain_path s.problem_path s.data_path = some cmd) :
    (∃ s', runPlannerTimes w n s = Except.ok s'
      ∧ s'.planning_attempts = s.planning_attempts + n
      ∧ s.plan_list <+: s'.plan_list
      ∧ s'.plan_list.length ≤ s.plan_list.length + n)
    ∧ ∃ b s1, runPlanner w s = Except.ok (b, s1)
      ∧ s1.planning_attempts = s.planning_attempts + 1
      ∧ s1.plan_list =
          (if s.planParser.action_list.length > 0 then s.plan_list ++ [s.planParser.action_list]
           else s.plan_list) := by
  constructor
  · induction n generalizing s with
    | zero => exact ⟨s, rfl, rfl, List.prefix_refl _, Nat.le_refl _⟩
    | succ n ih =>
      obtain ⟨b, s1, hrun, -, hatt, hlist, h1, h2, h3, h4, -⟩ := runPlanner_ok w s cmd hcmd
      have hcmd1 :
          commandString s1.planner_command s1.domain_path s1.problem_path s1.data_path
            = some cmd := by
        rw [h1, h2, h3, h4]
        exact hcmd
      obtain ⟨s', hrun', hatt', hpre', hlen'⟩ := ih s1 hcmd1
      refine ⟨s', ?_, ?_, ?_, ?_⟩
      · simp only [runPlannerTimes, hrun]
        exact hrun'
      · rw [hatt', hatt]
        omega
      · refine List.IsPrefix.trans ?_ hpre'
        rw [hlist]
        split
        · exact List.prefix_append _ _
        · exact List.prefix_refl _
      · have hl1 : s1.plan_list.length ≤ s.plan_list.length + 1 := by
          rw [hlist]
          split
          · simp
          · omega
        omega
  · obtain ⟨b, s1, hrun, -, hatt, hlist, -⟩ := runPlanner_ok w s cmd hcmd
    exact ⟨b, s1, hrun, hatt, hlist⟩

/-- C5, amended, on the sample mission: its two attempts raise
`planning_attempts` by two and add nothing to the plan history. -/
theorem plan_history_append_only_witness :
    (∃ s', runPlannerTimes sampleWorld 2
        (setContext "D".toList "P".toList "dd/".toList "DOMAIN PROBLEM".toList initial)
          = Except.ok s'
      ∧ s'.planning_attempts = 0 + 2
      ∧ [] <+: s'.plan_list
      ∧ s'.plan_list.length ≤ 0 + 2)
    ∧ ∃ b s1, runPlanner sampleWorld
        (setContext "D".toList "P".toList "dd/".toList "DOMAIN PROBLEM".toList initial)
          = Except.ok (b, s1)
      ∧ s1.planning_attempts = 0 + 1
      ∧ s1.plan_list = [] :=
  plan_history_append_only sampleWorld 2
    (setContext "D".toList "P".toList "dd/".toList "DOMAIN PROBLEM".toList initial)
    "D P > dd/plan.pddl".toList sample_commandString

/-! ## Knowledge filter -/

/-- C10. Filter replace semantics. `publishFilter` appends exactly two messages
to the filter publisher, a CLEAR message with no items and then an ADD message
with the knowledge filter of the parser, and changes no other field; whatever
was published before, for an earlier attempt, the knowledge base then holds
exactly the filter of the parser and not a union with earlier ones. -/
theorem publishFilter_clear_then_add (s : PlanningSystem) :
    publishFilter s =
      { s with
        filter_publisher := s.filter_publisher ++
          [{ function := FilterFunction.CLEAR, knowledge_items := [] },
           { function := FilterFunction.ADD, knowledge_items := s.planParser.knowledge_filter }] }
    ∧ observedFilter (publishFilter s).filter_publisher = s.planParser.knowledge_filter
    ∧ ∀ t : PlanningSystem, t.filter_publisher = (publishFilter s).filter_publisher →
        (publishFilter t).filter_publisher = s.filter_publisher ++
          [{ function := FilterFunction.CLEAR, knowledge_items := [] },
           { function := FilterFunction.ADD, knowledge_items := s.planParser.knowledge_filter },
           { function := FilterFunction.CLEAR, knowledge_items := [] },
           { function := FilterFunction.ADD, knowledge_items := t.planParser.knowledge_filter }]
        ∧ observedFilter (publishFilter t).filter_publisher = t.planParser.knowledge_filter := by
  refine ⟨?_, ?_, ?_⟩
  · simp [publishFilter]
  · simp [publishFilter, observedFilter, applyFilter, List.foldl_append]
  · intro t ht
    constructor
    · simp [publishFilter] at ht ⊢
      rw [ht, List.append_assoc]
      rfl
    · simp [publishFilter, observedFilter, applyFilter, List.foldl_append]

/-! ## Commands -/

/-- C7. The cancel command. In READY nothing changes and nothing is published;
in PLANNING and DISPATCHING only `plan_cancelled` is set; in PAUSED
`plan_cancelled` is set, `dispatch_paused` is cleared, the status becomes
DISPATCHING and "Dispatching" is published. -/
theorem commandCallback_cancel (fuel : Nat) (w : World) (s : PlanningSystem) :
    commandCallback fuel w "cancel".toList s = Except.ok
      (match s.system_status with
       | SystemStatus.READY => s
       | SystemStatus.PLANNING =>
         { s with plan_dispatcher := { s.plan_dispatcher with plan_cancelled := true } }
       | SystemStatus.DISPATCHING =>
         { s with plan_dispatcher := { s.plan_dispatcher with plan_cancelled := true } }
       | SystemStatus.PAUSED =>
         { s with
           plan_dispatcher :=
             { s.plan_dispatcher with plan_cancelled := true, dispatch_paused := false },
           system_status := SystemStatus.DISPATCHING,
           state_publisher := s.state_publisher ++ ["Dispatching".toList] }) := by
  have h1 : ("cancel".toList.take 4 = "plan".toList) = False := by decide
  have h2 : ("cancel".toList = "pause".toList) = False := by decide
  unfold commandCallback commandCallbackWith
  simp only [h1, h2, if_false, if_true]
  cases hs : s.system_status <;> simp [hs]

/-- C9. Pause and resume. From DISPATCHING with `dispatch_paused` false, the
pause command leads to PAUSED with `dispatch_paused` true and publishes
"Paused"; a second pause command then publishes "Dispatching" and gives back
the state before the first one, but for the two messages published. The pause
command changes nothing in READY, in PLANNING, and in DISPATCHING when
`dispatch_paused` is already true. -/
theorem commandCallback_pause_resume (fuel : Nat) (w : World) (s : PlanningSystem) :
    (s.system_status = SystemStatus.DISPATCHING → s.plan_dispatcher.dispatch_paused = false →
      ∃ s1, commandCallback fuel w "pause".toList s = Except.ok s1
        ∧ s1.system_status = SystemStatus.PAUSED
        ∧ s1.plan_dispatcher.dispatch_paused = true
        ∧ s1.state_publisher = s.state_publisher ++ ["Paused".toList]
        ∧ commandCallback fuel w "pause".toList s1 = Except.ok
            { s with
              state_publisher := s.state_publisher ++ ["Paused".toList, "Dispatching".toList] })
    ∧ (s.system_status = SystemStatus.READY ∨ s.system_status = SystemStatus.PLANNING
        ∨ (s.system_status = SystemStatus.DISPATCHING ∧ s.plan_dispatcher.dispatch_paused = true) →
      commandCallback fuel w "pause".toList s = Except.ok s) := by
  have h1 : ("pause".toList.take 4 = "plan".toList) = False := by decide
  constructor
  · intro hs hp
    refine ⟨{ s with
              plan_dispatcher := { s.plan_dispatcher with dispatch_paused := true },
              system_status := SystemStatus.PAUSED,
              state_publisher := s.state_publisher ++ ["Paused".toList] }, ?_, rfl, rfl, rfl, ?_⟩
    · unfold commandCallback commandCallbackWith
      simp [h1, hs, hp]
    · unfold commandCallback commandCallbackWith
      obtain ⟨st, pp, ⟨dp, pc, rr, ca⟩, _⟩ := s
      simp only at hs hp
      subst hs hp
      simp [h1]
  · intro h
    unfold commandCallback commandCallbackWith
    rcases h with h | h | ⟨h, hp⟩ <;> simp [h1, h, *]

/-- C10, for two attempts in a row: after the filter `k` of attempt 1 and the
filter `m` of attempt 2, the knowledge base holds `m` alone. -/
theorem publishFilter_clear_then_add_witness :
    (publishFilter
        { publishFilter dispatchingState with
          planParser := { action_list := [], knowledge_filter := ["m".toList] } }).filter_publisher
      = [] ++
        [{ function := FilterFunction.CLEAR, knowledge_items := [] },
         { function := FilterFunction.ADD, knowledge_items := ["k".toList] },
         { function := FilterFunction.CLEAR, knowledge_items := [] },
         { function := FilterFunction.ADD, knowledge_items := ["m".toList] }]
    ∧ observedFilter
        (publishFilter
          { publishFilter dispatchingState with
            planParser := { action_list := [], knowledge_filter := ["m".toList] } }).filter_publisher
      = ["m".toList] :=
  (publishFilter_clear_then_add dispatchingState).2.2
    { publishFilter dispatchingState with
      planParser := { action_list := [], knowledge_filter := ["m".toList] } } rfl

/-- C9, on the sample mission while it is dispatching. -/
theorem commandCallback_pause_resume_witness :
    dispatchingState.system_status = SystemStatus.DISPATCHING
    ∧ dispatchingState.plan_dispatcher.dispatch_paused = false
    ∧ ∃ s1, commandCallback 0 sampleWorld "pause".toList dispatchingState = Except.ok s1
        ∧ s1.system_status = SystemStatus.PAUSED
        ∧ s1.plan_dispatcher.dispatch_paused = true
        ∧ s1.state_publisher = dispatchingState.state_publisher ++ ["Paused".toList]
        ∧ commandCallback 0 sampleWorld "pause".toList s1 = Except.ok
            { dispatchingState with
              state_publisher :=
                dispatchingState.state_publisher ++ ["Paused".toList, "Dispatching".toList] } :=
  ⟨rfl, rfl, (commandCallback_pause_resume 0 sampleWorld dispatchingState).1 rfl rfl⟩

/-! ## Starting a mission -/

/-- C3. A start request outside READY is rejected. Whatever the arguments, the
fuel and the world, `runPlanningServer` returns false; the status and the state
publisher are as before, and so are the records of the planning attempts, of
the commands run, of the problem requests and of the dispatch calls: the retry
loop is not entered. -/
theorem runPlanningServer_busy (fuel : Nat) (w : World) (d p dd t : List Char)
    (s : PlanningSystem) (h : s.system_status ≠ SystemStatus.READY) :
    ∃ s', runPlanningServer fuel w d p dd t s = Except.ok (false, s')
      ∧ s'.system_status = s.system_status
      ∧ s'.state_publisher = s.state_publisher
      ∧ s'.planning_attempts = s.planning_attempts
      ∧ s'.commands_run = s.commands_run
      ∧ s'.problem_requests = s.problem_requests
      ∧ s'.plan_publisher = s.plan_publisher
      ∧ s'.dispatch_calls = s.dispatch_calls
      ∧ s'.plan_dispatcher = s.plan_dispatcher
      ∧ s'.planParser = s.planParser
      ∧ s'.plan_list = s.plan_list := by
  refine ⟨setContext d p dd t s, ?_, rfl, rfl, rfl, rfl, rfl, rfl, rfl, rfl, rfl, rfl⟩
  unfold runPlanningServer runPlanningServerWith
  have h' : (setContext d p dd t s).system_status ≠ SystemStatus.READY := h
  simp [h']

/-- C3, for a second start while the sample mission is dispatching. -/
theorem runPlanningServer_busy_witness :
    dispatchingState.system_status ≠ SystemStatus.READY
    ∧ ∃ s', runPlanningServer 0 sampleWorld "D2".toList "P2".toList "dd2/".toList
          "DOMAIN PROBLEM".toList dispatchingState = Except.ok (false, s')
      ∧ s'.system_status = dispatchingState.system_status
      ∧ s'.state_publisher = dispatchingState.state_publisher
      ∧ s'.planning_attempts = dispatchingState.planning_attempts
      ∧ s'.commands_run = dispatchingState.commands_run
      ∧ s'.problem_requests = dispatchingState.problem_requests
      ∧ s'.plan_publisher = dispatchingState.plan_publisher
      ∧ s'.dispatch_calls = dispatchingState.dispatch_calls
      ∧ s'.plan_dispatcher = dispatchingState.plan_dispatcher
      ∧ s'.planParser = dispatchingState.planParser
      ∧ s'.plan_list = dispatchingState.plan_list :=
  ⟨by decide,
   runPlanningServer_busy 0 sampleWorld "D2".toList "P2".toList "dd2/".toList
     "DOMAIN PROBLEM".toList dispatchingState (by decide)⟩

/-- C4 fails on the code: a start request that is rejected while the sample
mission is dispatching has already overwritten the four context fields of the
mission in flight, and the next planning attempt of that mission runs the
command built from the new values. -/
theorem rejected_start_overwrites_context :
    dispatchingState.system_status = SystemStatus.DISPATCHING
    ∧ dispatchingState.domain_path = "D".toList
    ∧ dispatchingState.problem_path = "P".toList
    ∧ dispatchingState.data_path = "dd/".toList
    ∧ dispatchingState.planner_command = "DOMAIN PROBLEM".toList
    ∧ ∃ s', runPlanningServer 0 sampleWorld "D2".toList "P2".toList "dd2/".toList
          "DOMAIN -x PROBLEM".toList dispatchingState = Except.ok (false, s')
      ∧ s'.system_status = SystemStatus.DISPATCHING
      ∧ s'.domain_path = "D2".toList
      ∧ s'.problem_path = "P2".toList
      ∧ s'.data_path = "dd2/".toList
      ∧ s'.planner_command = "DOMAIN -x PROBLEM".toList
      ∧ ∃ b s'', runPlanner sampleWorld s' = Except.ok (b, s'')
        ∧ s''.commands_run = ["D2 -x P2 > dd2/plan.pddl".toList] :=
  ⟨rfl, rfl, rfl, rfl, rfl, _, rfl, rfl, rfl, rfl, rfl, rfl, _, _, rfl, by decide⟩

/-! ## The command string -/

/-- C2 fails on the code: `replace` is called with the lengths `dit+6` and
`pit+7`, not 6 and 7. With the template of the sample mission the first call
replaces `DOMAIN PROBLEM` whole, the second `find` returns `npos`, and the second
`replace` throws `std::out_of_range`, for every domain path that does not itself
hold `PROBLEM`, as with the default template and paths. Where nothing is thrown,
text after the placeholder is lost: ` -` in the third template below. -/
theorem commandString_sample_template_throws (dd : List Char) :
    commandString "solve DOMAIN PROBLEM".toList "D".toList "P".toList dd = none
    ∧ commandString "timeout 10 common/bin/popf -n DOMAIN PROBLEM".toList
        "common/domain.pddl".toList "common/problem.pddl".toList dd = none
    ∧ commandString "DOMAIN PROBLEM -n -x".toList "D".toList "P".toList dd
        = some ("D Pn -x".toList ++ " > ".toList ++ dd ++ "plan.pddl".toList)
    ∧ runPlanner sampleWorld
        (setContext "D".toList "P".toList dd "solve DOMAIN PROBLEM".toList initial)
        = Except.error Fault.out_of_range := by
  exact ⟨rfl, rfl, rfl, rfl⟩

/-! ## The retry loop -/

/-- C1 fails on the code: the value returned by `runPlanner` is not used. On the
sample mission the first attempt is unsolvable, and its iteration still
publishes a plan (the empty action list), enters DISPATCHING and calls
`dispatchPlan`; the dispatcher is called twice in the mission, not once. With a
dispatcher that returns true on the empty plan the mission ends as solved
after that single unsolvable attempt. -/
theorem unsolvable_attempt_is_dispatched :
    (∃ s1, runPlanner sampleWorld
        (loopTop (startMission sampleWorld
          (setContext "D".toList "P".toList "dd/".toList "DOMAIN PROBLEM".toList initial)))
          = Except.ok (false, s1))
    ∧ (∃ s2, loopPlan sampleWorld
        (loopTop (startMission sampleWorld
          (setContext "D".toList "P".toList "dd/".toList "DOMAIN PROBLEM".toList initial)))
          = Except.ok s2
      ∧ s2.system_status = SystemStatus.DISPATCHING
      ∧ s2.plan_publisher = [[]]
      ∧ s2.dispatch_calls = [[]]
      ∧ s2.state_publisher =
          ["Ready".toList, "Planning".toList, "Planning".toList, "Dispatching".toList])
    ∧ (∃ s', runPlanningServer 5 sampleWorld "D".toList "P".toList "dd/".toList
          "DOMAIN PROBLEM".toList initial = Except.ok (true, s')
      ∧ s'.planning_attempts = 2
      ∧ s'.plan_publisher = [[], sampleActions]
      ∧ s'.dispatch_calls = [[], sampleActions])
    ∧ ∃ s', runPlanningServer 5 { sampleWorld with dispatchResult := fun _ => true }
          "D".toList "P".toList "dd/".toList "DOMAIN PROBLEM".toList initial
          = Except.ok (true, s')
      ∧ s'.planning_attempts = 1
      ∧ s'.parser_calls = []
      ∧ s'.dispatch_calls = [[]] :=
  ⟨⟨_, rfl⟩, ⟨_, rfl, by decide, by decide, by decide, by decide⟩,
   ⟨_, rfl, by decide, by decide, by decide⟩, ⟨_, rfl, by decide, by decide, by decide⟩⟩

/-! ## The PAUSED state -/

theorem runPlanningServerDefault_status (fuel : Nat) (w : World) (s s' : PlanningSystem)
    (b : Bool) (h : runPlanningServerDefault fuel w s = Except.ok (b, s')) :
    s'.system_status = SystemStatus.READY ∨ s'.system_status = s.system_status := by
  unfold runPlanningServerDefault runPlanningServerDefaultWith runPlanningServerWith at h
  simp only [setContext] at h
  split at h
  · simp only [Except.ok.injEq, Prod.mk.injEq] at h
    right
    rw [← h.2]
  · split at h
    · exact absurd h (by simp)
    · simp only [Except.ok.injEq, Prod.mk.injEq] at h
      left
      rw [← h.2]
      rfl

theorem commandCallback_status (fuel : Nat) (w : World) (msg : List Char)
    (s s' : PlanningSystem) (h : commandCallback fuel w msg s = Except.ok s') :
    (s'.system_status = SystemStatus.PAUSED → s.system_status ≠ SystemStatus.PAUSED →
      s.system_status = SystemStatus.DISPATCHING)
    ∧ (s.system_status = SystemStatus.PAUSED → s'.system_status ≠ SystemStatus.PAUSED →
      s'.system_status = SystemStatus.DISPATCHING) := by
  unfold commandCallback commandCallbackWith at h
  by_cases hplan : msg.take 4 = "plan".toList
  · rw [if_pos hplan] at h
    dsimp only at h
    have key : ∀ s1 : PlanningSystem, s1.system_status = s.system_status →
        (if s1.system_status = SystemStatus.READY then
            match runPlanningServerDefault fuel w s1 with
            | Except.error e => Except.error e
            | Except.ok (_, t) => Except.ok t
          else Except.ok s1) = Except.ok s' →
        (s'.system_status = SystemStatus.PAUSED → s.system_status ≠ SystemStatus.PAUSED →
          s.system_status = SystemStatus.DISPATCHING)
        ∧ (s.system_status = SystemStatus.PAUSED → s'.system_status ≠ SystemStatus.PAUSED →
          s'.system_status = SystemStatus.DISPATCHING) := by
      intro s1 hst h1
      split at h1
      · rename_i hready
        split at h1
        · exact absurd h1 (by simp)
        · rename_i b t hstart
          simp only [Except.ok.injEq] at h1
          subst h1
          have := runPlanningServerDefault_status fuel w _ _ _ hstart
          rw [hready] at this
          rw [hst] at hready
          have ht : t.system_status = SystemStatus.READY := by
            rcases this with h2 | h2 <;> exact h2
          simp [hready, ht]
      · simp only [Except.ok.injEq] at h1
        rw [← h1, hst]
        exact ⟨fun h2 h3 => absurd h2 h3, fun h2 h3 => absurd h2 h3⟩
    by_cases hl : msg.length > 4
    · rw [if_pos hl] at h
      refine key _ ?_ h
      rfl
    · rw [if_neg hl] at h
      refine key _ ?_ h
      rfl
  · rw [if_neg hplan] at h
    by_cases hpause : msg = "pause".toList
    · rw [if_pos hpause] at h
      cases hs : s.system_status <;> cases hp : s.plan_dispatcher.dispatch_paused <;>
        simp [hs, hp] at h <;> subst h <;> simp [hs]
    · rw [if_neg hpause] at h
      by_cases hcancel : msg = "cancel".toList
      · rw [if_pos hcancel] at h
        cases hs : s.system_status <;> simp [hs] at h <;> subst h <;> simp [hs]
      · rw [if_neg hcancel] at h
        simp only [Except.ok.injEq] at h
        subst h
        exact ⟨fun h1 h2 => absurd h1 h2, fun h1 h2 => absurd h1 h2⟩

theorem loopPlan_status (w : World) (s s' : PlanningSystem)
    (h : loopPlan w s = Except.ok s') :
    s'.system_status = SystemStatus.DISPATCHING := by
  unfold loopPlan at h
  dsimp only at h
  split at h
  · exact absurd h (by simp)
  · simp only [Except.ok.injEq] at h
    rw [← h]

/-- C8 fails on the code when `dispatchPlan` may return while the system is
paused: on the sample mission a pause command arrives during the first
dispatch, `dispatchPlan` returns, and the loop assigns its next status over
PAUSED, PLANNING at line 226 when the value returned is false and READY at
line 254 when it is true. -/
theorem paused_left_for_planning_or_ready :
    (∃ c c', Reachable sampleWorld c ∧ Step sampleWorld c c'
      ∧ c.sys.system_status = SystemStatus.PAUSED
      ∧ c'.sys.system_status = SystemStatus.PLANNING)
    ∧ ∃ c c', Reachable sampleWorld c ∧ Step sampleWorld c c'
      ∧ c.sys.system_status = SystemStatus.PAUSED
      ∧ c'.sys.system_status = SystemStatus.READY := by
  have h : ∃ s3 s4,
      loopPlan sampleWorld
        (loopTop (startMission sampleWorld
          (setContext "D".toList "P".toList "dd/".toList "DOMAIN PROBLEM".toList initial)))
        = Except.ok s3
      ∧ commandCallback 0 sampleWorld "pause".toList s3 = Except.ok s4
      ∧ s4.system_status = SystemStatus.PAUSED
      ∧ loopCondition false s4 = true ∧ loopCondition true s4 = false :=
    ⟨_, _, rfl, rfl, by decide, by decide, by decide⟩
  obtain ⟨s3, s4, hplan, hpause, hst, hgo, hstop⟩ := h
  have r1 := Reachable.step _ _ Reachable.init
    (Step.start (w := sampleWorld) "D".toList "P".toList "dd/".toList "DOMAIN PROBLEM".toList
      initial rfl)
  have r2 := Reachable.step _ _ r1 (Step.iterate false _ (by decide))
  have r3 := Reachable.step _ _ r2 (Step.plan _ s3 hplan)
  have r4 := Reachable.step _ _ r3 (Step.command 0 "pause".toList s3 s4 _ hpause)
  exact
    ⟨⟨_, _, Reachable.step _ _ r4 (Step.dispatched false s4), Step.iterate false s4 hgo, hst, rfl⟩,
     ⟨_, _, Reachable.step _ _ r4 (Step.dispatched true s4), Step.finish true s4 hstop, hst, rfl⟩⟩

/-- C8, amended. Every step that changes the status to PAUSED starts from
DISPATCHING. Every step that changes the status away from PAUSED ends in
DISPATCHING, unless it is taken by the mission loop at its head, after
`dispatchPlan` has returned: the callbacks leave PAUSED only for DISPATCHING. -/
theorem paused_from_and_to_dispatching (w : World) (c c' : Config) (h : Step w c c') :
    (c'.sys.system_status = SystemStatus.PAUSED → c.sys.system_status ≠ SystemStatus.PAUSED →
      c.sys.system_status = SystemStatus.DISPATCHING)
    ∧ (c.sys.system_status = SystemStatus.PAUSED → c'.sys.system_status ≠ SystemStatus.PAUSED →
      c'.sys.system_status = SystemStatus.DISPATCHING ∨ ∃ b, c.point = LoopPoint.head b) := by
  cases h with
  | command fuel msg s s' pt hc =>
    have := commandCallback_status fuel w msg s s' hc
    exact ⟨this.1, fun h1 h2 => Or.inl (this.2 h1 h2)⟩
  | notification s pt =>
    exact ⟨fun h1 h2 => absurd h1 h2, fun h1 h2 => absurd h1 h2⟩
  | start d p dd t s hs =>
    refine ⟨fun h1 _ => ?_, fun h1 _ => ?_⟩
    · exact absurd h1 (by simp [startMission])
    · have h3 : s.system_status = SystemStatus.PAUSED := h1
      rw [hs] at h3
      exact absurd h3 (by decide)
  | busy d p dd t s pt hs =>
    exact ⟨fun h1 h2 => absurd h1 h2, fun h1 h2 => absurd h1 h2⟩
  | iterate b s hb =>
    exact ⟨fun h1 _ => absurd h1 (by simp [loopTop]), fun _ _ => Or.inr ⟨b, rfl⟩⟩
  | plan s s' hp =>
    have hd := loopPlan_status w s s' hp
    refine ⟨fun h1 _ => ?_, fun _ _ => Or.inl hd⟩
    have h3 : s'.system_status = SystemStatus.PAUSED := h1
    rw [hd] at h3
    exact absurd h3 (by decide)
  | dispatched b s =>
    exact ⟨fun h1 h2 => absurd h1 h2, fun h1 h2 => absurd h1 h2⟩
  | finish b s hb =>
    exact ⟨fun h1 _ => absurd h1 (by simp [finishMission]), fun _ _ => Or.inr ⟨b, rfl⟩⟩

/-- C8, amended, on the pause command that arrives while the sample mission is
dispatching: the step enters PAUSED, and it starts from DISPATCHING. -/
theorem paused_from_and_to_dispatching_witness :
    Step sampleWorld ⟨dispatchingState, LoopPoint.dispatching⟩ ⟨pausedState, LoopPoint.dispatching⟩
    ∧ pausedState.system_status = SystemStatus.PAUSED
    ∧ dispatchingState.system_status ≠ SystemStatus.PAUSED
    ∧ dispatchingState.system_status = SystemStatus.DISPATCHING :=
  ⟨Step.command 0 "pause".toList dispatchingState pausedState LoopPoint.dispatching rfl, rfl,
   by decide,
   (paused_from_and_to_dispatching sampleWorld ⟨dispatchingState, LoopPoint.dispatching⟩
     ⟨pausedState, LoopPoint.dispatching⟩
     (Step.command 0 "pause".toList dispatchingState pausedState LoopPoint.dispatching rfl)).1
     rfl (by decide)⟩

end KCL_rosplan
